import Mathlib

/-!
Shallow embedding of the CTN news intelligence service (aiService) and its
news-search HTTP route.  Numbers are modelled as rationals, JS exceptions as
`Except Unit`, the outcome of each external LLM / search-provider call as an
explicit `Except` parameter (the service treats those calls as opaque), the
two `Math.random()` draws of the keyword heuristic as explicit rational
parameters, and the NodeCache instance as an association list threaded through
the functions (a fresh binding shadows an older one, which matches NodeCache
`set` overwriting a key; TTL expiry is abstracted: an entry present in the list
models a live, unexpired entry, so runs over one list model calls inside one
TTL window).
-/

namespace CtnAi

/-- Semantics of the JS expression `v || d` for a possibly-absent numeric field
of a parsed JSON object: `undefined` and `0` are falsy and select the default. -/
def jsOrQ (v : Option ℚ) (d : ℚ) : ℚ :=
  match v with
  | none => d
  | some x => if x = 0 then d else x

/-- Semantics of the JS expression `v || d` for a possibly-absent string field:
`undefined` and the empty string are falsy and select the default. -/
def jsOrStr (v : Option String) (d : String) : String :=
  match v with
  | none => d
  | some s => if s = "" then d else s

/-- Semantics of the JS expression `v || null` for a string field: `undefined`
and the empty string collapse to `null`. -/
def jsOrNull (v : Option String) : Option String :=
  match v with
  | none => none
  | some s => if s = "" then none else some s

/-- Model of `String.prototype.toLowerCase` (ASCII case mapping, which is all
the service's inputs use). -/
def jsToLower (s : String) : String :=
  String.mk (s.data.map Char.toLower)

/-- Character-list version of "the first list starts with the second". -/
def listStartsWith : List Char → List Char → Bool
  | [], _ => true
  | _ :: _, [] => false
  | p :: ps, c :: cs => p == c && listStartsWith ps cs

/-- Number of non-overlapping, leftmost matches of `pat` in the scanned list:
the value of `(s.match(new RegExp(pat, 'g')) || []).length` for a pattern
without regex metacharacters (all the service's keyword patterns are such
literals).  The fuel argument only bounds the recursion depth for structural
termination; every step consumes at least one character, so fuel equal to the
scanned length never runs out. -/
def countOccsAux (pat : List Char) : Nat → List Char → Nat
  | 0, _ => 0
  | _, [] => 0
  | fuel + 1, c :: rest =>
    if listStartsWith pat (c :: rest) then
      1 + countOccsAux pat fuel (List.drop (pat.length - 1) rest)
    else
      countOccsAux pat fuel rest

/-- String wrapper for `countOccsAux`. -/
def countOccs (pat s : String) : Nat :=
  countOccsAux pat.data s.data.length s.data

/-- Model of `s.includes(pat)` for a nonempty literal `pat`. -/
def jsIncludes (s pat : String) : Bool :=
  countOccs pat s != 0

/-- Model of `s.replace(pat, rep)` with a plain nonempty string pattern:
only the first occurrence is replaced. -/
def jsReplaceFirstAux (pat rep : List Char) : List Char → List Char
  | [] => []
  | c :: rest =>
    if listStartsWith pat (c :: rest) then
      rep ++ List.drop pat.length (c :: rest)
    else
      c :: jsReplaceFirstAux pat rep rest

/-- String wrapper for `jsReplaceFirstAux`. -/
def jsReplaceFirst (s pat rep : String) : String :=
  String.mk (jsReplaceFirstAux pat.data rep.data s.data)

/-- Model of JS `Math.round`: round half toward positive infinity, which on
rationals is `⌊x + 1/2⌋` (written with the executable `Rat.floor`). -/
def jsRound (x : ℚ) : ℤ := (x + 1 / 2).floor

/-- Model of `parseInt` applied to a nonnegative numeric query value, as used
by the route before calling the search function. -/
def jsTruncToNat (q : ℚ) : ℕ := (⌊q⌋).toNat

/-- NodeCache lookup (`ctnCache.get key`): most recent binding for the key. -/
def cacheGet {α : Type} (c : List (String × α)) (k : String) : Option α :=
  List.lookup k c

/-- NodeCache store (`ctnCache.set key v`): the new binding shadows older ones. -/
def cacheSet {α : Type} (c : List (String × α)) (k : String) (v : α) :
    List (String × α) :=
  (k, v) :: c

/-- Base64 alphabet, for `Buffer.from(content).toString('base64')`. -/
def base64Alphabet : List Char :=
  "ABCDEFGHIJKLMNOPQRSTUVWXYZabcdefghijklmnopqrstuvwxyz0123456789+/".data

/-- Character of the base64 alphabet at a 6-bit index. -/
def b64Char (n : ℕ) : Char := base64Alphabet.getD n 'A'

/-- Standard base64 encoding of a byte list, with `=` padding. -/
def base64EncodeAux : List UInt8 → List Char
  | [] => []
  | [b1] =>
    let n := b1.toNat
    [b64Char (n / 4), b64Char ((n % 4) * 16), '=', '=']
  | [b1, b2] =>
    let n := b1.toNat * 256 + b2.toNat
    [b64Char (n / 1024), b64Char ((n / 16) % 64), b64Char ((n % 16) * 4), '=']
  | b1 :: b2 :: b3 :: rest =>
    let n := b1.toNat * 65536 + b2.toNat * 256 + b3.toNat
    b64Char (n / 262144) :: b64Char ((n / 4096) % 64) :: b64Char ((n / 64) % 64) ::
      b64Char (n % 64) :: base64EncodeAux rest

/-- Model of `Buffer.from(s).toString('base64')` (UTF-8 bytes of `s`). -/
def base64Encode (s : String) : String :=
  String.mk (base64EncodeAux s.toUTF8.toList)

/-- Cache key of the tier-1 bias analysis:
`ctn_bias_` followed by the first 50 chars of the base64 of the content. -/
def ctnBiasCacheKey (content : String) : String :=
  "ctn_bias_" ++ (base64Encode content).take 50

/-- Cache key of the per-source analysis of tier 2: `ctn_source_bias_` followed
by the lowercased source with every char outside `[a-z0-9]` replaced by `_`. -/
def ctnSourceBiasCacheKey (source : String) : String :=
  "ctn_source_bias_" ++ String.mk ((jsToLower source).data.map fun ch =>
    if ('a' ≤ ch ∧ ch ≤ 'z') ∨ ('0' ≤ ch ∧ ch ≤ '9') then ch else '_')

/-- A bias analysis as returned by any tier of `ctnAnalyzePoliticalBias`.
`sourceReliability` is `none` when the producing tier does not set the field
(tier 1 omits it). -/
structure BiasAnalysis where
  biasScore : ℚ
  biasLabel : String
  confidence : ℚ
  reasoning : String
  keyIndicators : List String
  sourceReliability : Option String
  analysisMethod : String
deriving DecidableEq, Repr

/-- The JSON object parsed from the tier-1 LLM response; every field may be
absent. -/
structure ParsedBias where
  biasScore : Option ℚ
  biasLabel : Option String
  confidence : Option ℚ
  reasoning : Option String
  keyIndicators : Option (List String)
deriving DecidableEq, Repr

/-- The JSON object parsed from the tier-2 source-reputation LLM response. -/
structure ParsedSource where
  biasScore : Option ℚ
  biasLabel : Option String
  confidence : Option ℚ
  reasoning : Option String
  keyIndicators : Option (List String)
  sourceReliability : Option String
deriving DecidableEq, Repr

/-- The JSON object parsed from the tier-2 article-in-context LLM response. -/
structure ParsedContent where
  finalBiasScore : Option ℚ
  finalBiasLabel : Option String
  confidence : Option ℚ
  reasoning : Option String
  keyIndicators : Option (List String)
deriving DecidableEq, Repr

/-- Liberal keyword list of `ctnAnalyzeContentBasedBias`. -/
def liberalKeywords : List String :=
  ["progressive", "liberal", "democratic", "democrats", "left-wing", "activist",
   "climate change", "global warming", "social justice", "systemic racism", "white privilege",
   "healthcare reform", "medicare for all", "gun control", "assault weapons", "LGBTQ",
   "transgender rights",
   "immigration reform", "dreamers", "refugees", "asylum seekers", "diversity", "inclusion",
   "income inequality", "wealth gap", "minimum wage", "living wage", "union", "workers rights",
   "environmental protection", "renewable energy", "green new deal", "civil rights",
   "voting rights",
   "vulnerable communities", "marginalized", "oppressed", "exploited", "corporate greed"]

/-- Conservative keyword list of `ctnAnalyzeContentBasedBias`. -/
def conservativeKeywords : List String :=
  ["conservative", "republican", "republicans", "right-wing", "patriot", "constitutional",
   "traditional values", "family values", "religious freedom", "christian values",
   "tax cuts", "deregulation", "free market", "capitalism", "small business", "job creators",
   "fiscal responsibility", "balanced budget", "national debt", "government spending",
   "second amendment", "gun rights", "border security", "illegal immigration", "law and order",
   "crime", "public safety", "police", "military", "national security", "terrorism",
   "limited government", "states rights", "school choice", "pro-life", "unborn",
   "radical left", "socialist", "communist", "woke", "cancel culture", "mainstream media"]

/-- Neutral keyword list of `ctnAnalyzeContentBasedBias`. -/
def neutralKeywords : List String :=
  ["bipartisan", "nonpartisan", "balanced", "objective", "factual", "data shows",
   "according to data", "research shows", "experts say", "analysis reveals", "study finds",
   "officials said", "sources indicate", "reported", "confirmed", "statistics show"]

/-- Hard-coded liberal source substrings of `ctnAnalyzeContentBasedBias`. -/
def liberalSources : List String :=
  ["huffington", "huffpost", "salon", "vox", "dailykos", "motherjones", "thenation",
   "commondreams", "thinkprogress", "mediamatters", "rawstory", "alternet", "truthout",
   "democracynow", "jacobin", "slate", "washingtonpost", "nytimes", "cnn", "msnbc"]

/-- Hard-coded conservative source substrings of `ctnAnalyzeContentBasedBias`. -/
def conservativeSources : List String :=
  ["foxnews", "fox", "dailywire", "breitbart", "nationalreview", "townhall",
   "dailycaller", "redstate", "theblaze", "washingtonexaminer", "nypost",
   "americanthinker", "powerline", "hotair", "pjmedia", "oann", "newsmax"]

/-- Total keyword weight of one list: per keyword, title matches count double
and body matches count once, summed over the list. -/
def keywordScore (keywords : List String) (titleLower contentLower : String) : ℕ :=
  keywords.foldl
    (fun acc kw => acc + 2 * countOccs kw titleLower + countOccs kw contentLower) 0

/-- Score/label/confidence computation of `ctnAnalyzeContentBasedBias` after
keyword counting and source matching: the nested if/else chain starting at
`const totalPoliticalScore = ...` in the source.  `r1` and `r2` are the first
and second `Math.random()` draws consumed on the taken path. -/
def ctnContentScoreCore (liberalScore conservativeScore neutralScore : ℕ)
    (sourceModifier : ℤ) (r1 r2 : ℚ) : ℚ × String × ℚ :=
  let totalPoliticalScore := liberalScore + conservativeScore
  if 0 < totalPoliticalScore then
    if conservativeScore < liberalScore ∨ sourceModifier < 0 then
      let dominanceRatio := max 0.3
        (((liberalScore : ℚ) + |(sourceModifier : ℚ)|) /
          max 1 ((totalPoliticalScore : ℚ) + 10))
      let biasScore := max 15 (50 - dominanceRatio * 35)
      (biasScore, if biasScore ≤ 25 then "Highly Liberal" else "Liberal",
        min 0.85 (0.6 + dominanceRatio * 0.25))
    else if liberalScore < conservativeScore ∨ 0 < sourceModifier then
      let dominanceRatio := max 0.3
        (((conservativeScore : ℚ) + |(sourceModifier : ℚ)|) /
          max 1 ((totalPoliticalScore : ℚ) + 10))
      let biasScore := min 85 (50 + dominanceRatio * 35)
      (biasScore, if 75 ≤ biasScore then "Highly Conservative" else "Conservative",
        min 0.85 (0.6 + dominanceRatio * 0.25))
    else
      if (totalPoliticalScore : ℚ) * 1.5 < (neutralScore : ℚ) ∧ totalPoliticalScore < 3 then
        (50 + (sourceModifier : ℚ), "Neutral/Centrist", 0.6)
      else if 0.5 < r1 then (35, "Liberal", 0.6)
      else (65, "Conservative", 0.6)
  else
    if 0.6 < r1 then
      let biasScore : ℚ := if 0.5 < r2 then 35 else 65
      (biasScore, if biasScore < 50 then "Liberal" else "Conservative", 0.5)
    else (50 + (sourceModifier : ℚ), "Neutral/Centrist", 0.5)

/-- Assembly of the tier-3 return object from the computed keyword scores and
source modifier: `Math.round` on the score, the fixed key indicators and
method tag, and the reasoning template. -/
def ctnContentBasedResult (liberalScore conservativeScore neutralScore : ℕ)
    (sourceModifier : ℤ) (source : String) (r1 r2 : ℚ) : BiasAnalysis :=
  let r := ctnContentScoreCore liberalScore conservativeScore neutralScore
    sourceModifier r1 r2
  { biasScore := ((jsRound r.1 : ℤ) : ℚ)
    biasLabel := r.2.1
    confidence := r.2.2
    reasoning := "Content-based analysis: Detected " ++ toString liberalScore ++
      " liberal, " ++ toString conservativeScore ++ " conservative, and " ++
      toString neutralScore ++ " neutral indicators in the article content from " ++ source
    keyIndicators := ["content-analysis", "keyword-detection", "linguistic-patterns"]
    sourceReliability := some "Unknown"
    analysisMethod := "CTN content-based linguistic analysis" }

/-- Tier 3 of the bias pipeline: the keyword/source heuristic
`ctnAnalyzeContentBasedBias(title, content, source)`: keyword counting over the
lowercased title and body, the ±10 keyword boost and ∓25 modifier on a source
match (the conservative list is only consulted when the liberal list does not
match), then scoring and assembly.  `r1`, `r2` are the up to two
`Math.random()` draws. -/
def ctnAnalyzeContentBasedBias (title content source : String) (r1 r2 : ℚ) :
    BiasAnalysis :=
  let titleLower := jsToLower title
  let contentLower := jsToLower content
  let sourceLower := jsToLower source
  let libSrc := liberalSources.any fun src => jsIncludes sourceLower src
  let conSrc := !libSrc && conservativeSources.any fun src => jsIncludes sourceLower src
  let liberalScore := keywordScore liberalKeywords titleLower contentLower +
    (if libSrc then 10 else 0)
  let conservativeScore := keywordScore conservativeKeywords titleLower contentLower +
    (if conSrc then 10 else 0)
  let neutralScore := keywordScore neutralKeywords titleLower contentLower
  let sourceModifier : ℤ := if libSrc then -25 else if conSrc then 25 else 0
  ctnContentBasedResult liberalScore conservativeScore neutralScore sourceModifier
    source r1 r2

/-- Tier-1 result construction: the validate-and-sanitize block of
`ctnAnalyzePoliticalBias` applied to the parsed LLM response. -/
def ctnTier1Result (p : ParsedBias) : BiasAnalysis :=
  { biasScore := max 0 (min 100 (jsOrQ p.biasScore 50))
    biasLabel := jsOrStr p.biasLabel "Neutral/Centrist"
    confidence := max 0 (min 1 (jsOrQ p.confidence 0.5))
    reasoning := jsOrStr p.reasoning "AI-powered bias analysis completed"
    keyIndicators := p.keyIndicators.getD []
    sourceReliability := none
    analysisMethod := "CTN AI-powered primary analysis" }

/-- Tier-2 result construction: the combine block of
`ctnGetSourceBasedBiasAnalysis` merging the source analysis and the
article-in-context analysis. -/
def ctnTier2Combine (sa : ParsedSource) (ca : ParsedContent) : BiasAnalysis :=
  { biasScore := max 0 (min 100 (jsOrQ ca.finalBiasScore (jsOrQ sa.biasScore 50)))
    biasLabel := jsOrStr ca.finalBiasLabel (jsOrStr sa.biasLabel "Neutral/Centrist")
    confidence := max 0 (min 1 (jsOrQ ca.confidence (jsOrQ sa.confidence 0.5)))
    reasoning := jsOrStr sa.reasoning "Source analysis completed" ++ ". " ++
      jsOrStr ca.reasoning "Content analysis completed"
    keyIndicators := sa.keyIndicators.getD [] ++ ca.keyIndicators.getD []
    sourceReliability := some (jsOrStr sa.sourceReliability "Medium")
    analysisMethod := "CTN AI-powered real-time source and content assessment" }

/-- Cache of tier-1 results (shared NodeCache restricted to `ctn_bias_` keys). -/
def BiasCache : Type := List (String × BiasAnalysis)

/-- Cache of tier-2 per-source analyses (shared NodeCache restricted to
`ctn_source_bias_` keys; the raw parsed object is what the code stores). -/
def SourceCache : Type := List (String × ParsedSource)

/-- Tier 2 of the pipeline, `ctnGetSourceBasedBiasAnalysis(source, title,
content)`.  `sourceCall` / `contentCall` are the outcomes (LLM call plus JSON
parse) of the two sequential calls; a cached source analysis skips the first
call entirely.  Any failure falls through to tier 3 — note the source analysis
is cached before the second call, so it stays cached even when that call fails. -/
def ctnGetSourceBasedBiasAnalysis (sourceCache : SourceCache)
    (source title content : String)
    (sourceCall : Except Unit ParsedSource) (contentCall : Except Unit ParsedContent)
    (r1 r2 : ℚ) : BiasAnalysis × SourceCache :=
  let key := ctnSourceBiasCacheKey source
  match cacheGet sourceCache key with
  | some sa =>
    match contentCall with
    | .ok ca => (ctnTier2Combine sa ca, sourceCache)
    | .error _ => (ctnAnalyzeContentBasedBias title content source r1 r2, sourceCache)
  | none =>
    match sourceCall with
    | .error _ => (ctnAnalyzeContentBasedBias title content source r1 r2, sourceCache)
    | .ok sa =>
      let cache1 := cacheSet sourceCache key sa
      match contentCall with
      | .ok ca => (ctnTier2Combine sa ca, cache1)
      | .error _ => (ctnAnalyzeContentBasedBias title content source r1 r2, cache1)

/-- The full bias pipeline `ctnAnalyzePoliticalBias(content, title, source)`:
cached tier-1 result if present; otherwise tier 1 on success of its call
(cached under the content key), tier 2 on tier-1 failure, tier 3 on tier-2
failure.  Results of tiers 2 and 3 are not written to the tier-1 cache (the
catch path returns without caching). -/
def ctnAnalyzePoliticalBias (biasCache : BiasCache) (sourceCache : SourceCache)
    (content title source : String)
    (tier1Call : Except Unit ParsedBias)
    (tier2SourceCall : Except Unit ParsedSource)
    (tier2ContentCall : Except Unit ParsedContent)
    (r1 r2 : ℚ) : BiasAnalysis × BiasCache × SourceCache :=
  let key := ctnBiasCacheKey content
  match cacheGet biasCache key with
  | some cached => (cached, biasCache, sourceCache)
  | none =>
    match tier1Call with
    | .ok p =>
      let result := ctnTier1Result p
      (result, cacheSet biasCache key result, sourceCache)
    | .error _ =>
      let r := ctnGetSourceBasedBiasAnalysis sourceCache source title content
        tier2SourceCall tier2ContentCall r1 r2
      (r.1, biasCache, r.2)

/-- One hit returned by the Exa search provider, with the fields the service
reads.  Timestamps are modelled as rational epoch values (ISO rendering is
abstracted). -/
structure ExaResult where
  title : Option String
  text : Option String
  summary : Option String
  url : String
  publishedDate : Option ℚ
  author : Option String
  image : Option String
  imageUrl : Option String
  featuredImage : Option String
  thumbnail : Option String
deriving DecidableEq, Repr

/-- An article in the service's own format. -/
structure Article where
  title : String
  content : String
  source : String
  url : String
  publishedAt : ℚ
  author : Option String
  imageUrl : String
deriving DecidableEq, Repr

/-- Model of `new URL(url).hostname` for the `scheme://[user@]host[:port]/...`
URLs the provider returns: the authority after the first `://` up to the first
`/`, `?` or `#`, with any userinfo and port stripped; `none` models the URL
constructor throwing. -/
def urlHostname (url : String) : Option String :=
  match url.splitOn "://" with
  | [] => none
  | [_] => none
  | _ :: rest =>
    let afterScheme := String.intercalate "://" rest
    let beforeSlash := (afterScheme.splitOn "/").headD ""
    let beforeQuery := (beforeSlash.splitOn "?").headD ""
    let authority := (beforeQuery.splitOn "#").headD ""
    let hostPort := (authority.splitOn "@").getLastD ""
    let host := (hostPort.splitOn ":").headD ""
    if host = "" then none else some (jsToLower host)

/-- Source-name extraction `ctnExtractSourceDomain(url)`: hostname with the
first occurrence of `www.` removed, then the part before the first dot;
`Unknown Source` when URL parsing throws. -/
def ctnExtractSourceDomain (url : String) : String :=
  match urlHostname url with
  | none => "Unknown Source"
  | some domain => ((jsReplaceFirst domain "www." "").splitOn ".").headD ""

/-- Generic fallback image used when a hit carries no image. -/
def ctnFallbackImageUrl : String :=
  "https://images.unsplash.com/photo-1504711434969-e33886168f5c?w=800&h=600&fit=crop&crop=center"

/-- Normalization of one provider hit into an Article, as in the `.map` of
`ctnSearchNewsArticles` (`now` models `new Date()` for a missing date). -/
def ctnTransformResult (now : ℚ) (r : ExaResult) : Article :=
  { title := jsOrStr r.title "Untitled Article"
    content := jsOrStr r.text (jsOrStr r.summary "No content available")
    source := ctnExtractSourceDomain r.url
    url := r.url
    publishedAt := r.publishedDate.getD now
    author := jsOrNull r.author
    imageUrl := jsOrStr r.image (jsOrStr r.imageUrl
      (jsOrStr r.featuredImage (jsOrStr r.thumbnail ctnFallbackImageUrl))) }

/-- URL de-duplication of `ctnSearchNewsArticles`: the filter over a shared
`seenUrls` set, keeping a hit only when its URL was not seen before. -/
def dedupByUrlAux (seen : List String) : List ExaResult → List ExaResult
  | [] => []
  | r :: rs =>
    if r.url ∈ seen then dedupByUrlAux seen rs
    else r :: dedupByUrlAux (r.url :: seen) rs

/-- Flattening of the four provider responses into `allResults`: a `null`
response contributes nothing, others contribute their `results` list in order. -/
def exaAllResults (searchResults : List (Option (List ExaResult))) : List ExaResult :=
  (searchResults.filterMap id).flatten

/-- The five hard-coded synthetic articles of the CTN fallback system,
timestamped 2,4,6,8,10 hours before `now` (milliseconds). -/
def ctnFallbackArticles (now : ℚ) : List Article :=
  [{ title := "Breaking: Major Tech Companies Announce AI Safety Initiative"
     content := "Leading technology companies have announced a comprehensive AI safety initiative aimed at ensuring responsible development of artificial intelligence systems. The collaboration involves establishing shared safety standards, conducting joint research on AI alignment, and creating transparent reporting mechanisms for AI development milestones. Industry experts view this as a crucial step toward preventing potential risks associated with advanced AI systems while promoting innovation in the field."
     source := "TechNews Daily"
     url := "https://example.com/ai-safety-initiative"
     publishedAt := now - 2 * 60 * 60 * 1000
     author := some "Sarah Mitchell"
     imageUrl := "https://images.unsplash.com/photo-1677442136019-21780ecad995?w=800&h=600&fit=crop&crop=center" },
   { title := "Climate Scientists Report Breakthrough in Carbon Capture Technology"
     content := "Researchers have developed a revolutionary carbon capture system that can remove CO2 from the atmosphere at unprecedented efficiency rates. The new technology combines advanced materials science with AI-powered optimization to achieve 90% capture efficiency while significantly reducing energy costs. The breakthrough could play a crucial role in meeting global climate targets and represents a major advancement in the fight against climate change."
     source := "Environmental Science Today"
     url := "https://example.com/carbon-capture-breakthrough"
     publishedAt := now - 4 * 60 * 60 * 1000
     author := some "Dr. Michael Chen"
     imageUrl := "https://images.unsplash.com/photo-1569163139394-de4e5f43e4e3?w=800&h=600&fit=crop&crop=center" },
   { title := "Global Markets React to New Economic Policy Announcements"
     content := "International financial markets showed mixed reactions to recent economic policy announcements from major central banks. While some sectors experienced volatility, others demonstrated resilience as investors analyze the implications of changing monetary policies. Economic analysts suggest that market uncertainty reflects broader concerns about inflation, interest rates, and global economic stability in the coming quarters."
     source := "Financial Review"
     url := "https://example.com/market-reaction-policy"
     publishedAt := now - 6 * 60 * 60 * 1000
     author := some "Jennifer Rodriguez"
     imageUrl := "https://images.unsplash.com/photo-1611974789855-9c2a0a7236a3?w=800&h=600&fit=crop&crop=center" },
   { title := "Medical Research: New Drug Shows Promise in Alzheimer's Treatment"
     content := "Clinical trials for a new Alzheimer's treatment have shown promising results, with patients experiencing significant improvements in cognitive function and memory retention. The drug targets specific proteins associated with the disease and has demonstrated fewer side effects compared to existing treatments. Medical experts are cautiously optimistic about the potential for this treatment to provide new hope for millions of Alzheimer's patients worldwide."
     source := "Medical Journal Weekly"
     url := "https://example.com/alzheimers-drug-trial"
     publishedAt := now - 8 * 60 * 60 * 1000
     author := some "Dr. Amanda Foster"
     imageUrl := "https://images.unsplash.com/photo-1582719508461-905c673771fd?w=800&h=600&fit=crop&crop=center" },
   { title := "Space Exploration: International Collaboration on Mars Mission Announced"
     content := "Space agencies from multiple countries have announced an ambitious collaborative mission to Mars, aimed at establishing a sustainable human presence on the Red Planet. The mission involves advanced life support systems, habitat construction, and resource utilization technologies. Scientists believe this international cooperation represents a significant milestone in space exploration and could pave the way for future interplanetary settlements."
     source := "Space Technology Review"
     url := "https://example.com/mars-mission-collaboration"
     publishedAt := now - 10 * 60 * 60 * 1000
     author := some "Dr. James Parker"
     imageUrl := "https://images.unsplash.com/photo-1446776653964-20c1d3a81b06?w=800&h=600&fit=crop&crop=center" }]

/-- The `{articles: [...]}` object the search returns and caches. -/
structure NewsData where
  articles : List Article
deriving DecidableEq, Repr

/-- Cache of search results (shared NodeCache restricted to `ctn_news_` keys). -/
def NewsCache : Type := List (String × NewsData)

/-- Cache key of a search: `ctn_news_` plus query, source filter and limit. -/
def ctnNewsCacheKey (query sources : String) (limit : ℕ) : String :=
  "ctn_news_" ++ query ++ "_" ++ sources ++ "_" ++ toString limit

/-- Search entry point `ctnSearchNewsArticles(query, sources, limit)`.
`provider` is the outcome of `Promise.race` over the four Exa searches and the
10-second timeout: `.ok` carries the four (possibly null) result lists, and
`.error` models any rejection, the timeout included.  The returned Bool records
whether a provider search was initiated (false only on a cache hit).  On
success the merged hits are de-duplicated by URL, truncated to `limit` and
normalized; on failure the five synthetic articles are returned; either result
is cached under the search key. -/
def ctnSearchNewsArticles (cache : NewsCache) (query sources : String) (limit : ℕ)
    (provider : Except Unit (List (Option (List ExaResult)))) (now : ℚ) :
    NewsData × NewsCache × Bool :=
  let key := ctnNewsCacheKey query sources limit
  match cacheGet cache key with
  | some cached => (cached, cache, false)
  | none =>
    match provider with
    | .ok searchResults =>
      let uniqueResults := dedupByUrlAux [] (exaAllResults searchResults)
      let articles : NewsData :=
        ⟨(uniqueResults.take limit).map (ctnTransformResult now)⟩
      (articles, cacheSet cache key articles, true)
    | .error _ =>
      let fallback : NewsData := ⟨ctnFallbackArticles now⟩
      (fallback, cacheSet cache key fallback, true)

/-- A neutral summary as produced by `ctnGenerateNeutralSummary`. -/
structure Summary where
  summary : String
  keyPoints : List String
  wordCount : ℚ
deriving DecidableEq, Repr

/-- An article with the bias and summary results merged on, as produced by
`ctnProcessCompleteArticle`. -/
structure ProcessedArticle where
  article : Article
  bias : BiasAnalysis
  summary : Summary
  processedAt : ℚ
deriving DecidableEq, Repr

/-- Per-article processing `ctnProcessCompleteArticle(article)`: the bias and
summary stages (modelled in detail above with their own oracle inputs) are
abstracted here into result functions, since the route-level claims do not
depend on their values. -/
def ctnProcessCompleteArticle (now : ℚ) (biasOf : Article → BiasAnalysis)
    (summaryOf : Article → Summary) (a : Article) : ProcessedArticle :=
  ⟨a, biasOf a, summaryOf a, now⟩

/-- Body served by the news-search route: HTTP status, processed articles, the
`error` / `message` string when one is set, and the reported total. -/
structure RouteResponse where
  status : ℕ
  articles : List ProcessedArticle
  message : Option String
  total : ℕ
deriving DecidableEq, Repr

/-- Outcome of one request to `GET /api/news/search`, with instrumentation:
whether `ctnSearchNewsArticles` was entered, whether a provider search was
initiated, and how many articles went through `ctnProcessCompleteArticle`. -/
structure RouteOutcome where
  response : RouteResponse
  cache : NewsCache
  searchInvoked : Bool
  providerInvoked : Bool
  processedCount : ℕ

/-- Continuation of the route after the search call: the empty-result message,
or the 200 response with every found article processed. -/
def newsRouteAfterSearch (r : NewsData × NewsCache × Bool) (now : ℚ)
    (biasOf : Article → BiasAnalysis) (summaryOf : Article → Summary) : RouteOutcome :=
  if r.1.articles.isEmpty then
    ⟨⟨200, [], some "No articles found for your search query", 0⟩, r.2.1, true, r.2.2, 0⟩
  else
    ⟨⟨200, r.1.articles.map (ctnProcessCompleteArticle now biasOf summaryOf), none,
      (r.1.articles.map (ctnProcessCompleteArticle now biasOf summaryOf)).length⟩,
     r.2.1, true, r.2.2,
     (r.1.articles.map (ctnProcessCompleteArticle now biasOf summaryOf)).length⟩

/-- The `GET /api/news/search` handler.  `limit` is the numeric value of the
query parameter (the JS `limit > 20` guard coerces the raw string to a number;
`parseInt` before the search call is `jsTruncToNat`).  The handler rejects
`limit > 20` with status 400 before any search, serves an empty-result message
otherwise, and else processes every found article. -/
def newsSearchRoute (query : String) (limit : ℚ) (cache : NewsCache)
    (provider : Except Unit (List (Option (List ExaResult)))) (now : ℚ)
    (biasOf : Article → BiasAnalysis) (summaryOf : Article → Summary) :
    RouteOutcome :=
  if 20 < limit then
    ⟨⟨400, [], some "Limit cannot exceed 20 articles", 0⟩, cache, false, false, 0⟩
  else
    newsRouteAfterSearch
      (ctnSearchNewsArticles cache query "" (jsTruncToNat limit) provider now)
      now biasOf summaryOf

/-- Label of the 5-bucket rubric containing a score.  Modelled from the spec:
`0-20 Highly Liberal / 21-40 Liberal / 41-60 Neutral-Centrist /
61-80 Conservative / 81-100 Highly Conservative`.  This definition follows the
spec's words, for comparison against the code's label assignment. -/
def specRubricLabel (s : ℚ) : String :=
  if s ≤ 20 then "Highly Liberal"
  else if s ≤ 40 then "Liberal"
  else if s ≤ 60 then "Neutral/Centrist"
  else if s ≤ 80 then "Conservative"
  else "Highly Conservative"

/-- The five label/score-range buckets the keyword heuristic can produce
(score after rounding).  Used to state what tier 3 actually guarantees. -/
def heuristicLabelRanges (b : BiasAnalysis) : Prop :=
  (b.biasLabel = "Highly Liberal" ∧ 15 ≤ b.biasScore ∧ b.biasScore ≤ 25) ∨
  (b.biasLabel = "Liberal" ∧ 25 ≤ b.biasScore ∧ b.biasScore ≤ 40) ∨
  (b.biasLabel = "Neutral/Centrist" ∧ b.biasScore = 50) ∨
  (b.biasLabel = "Conservative" ∧ 60 ≤ b.biasScore ∧ b.biasScore ≤ 75) ∨
  (b.biasLabel = "Highly Conservative" ∧ 75 ≤ b.biasScore ∧ b.biasScore ≤ 85)

/-- The documented output ranges: score in [0,100], confidence in [0,1]. -/
def biasInRange (b : BiasAnalysis) : Prop :=
  0 ≤ b.biasScore ∧ b.biasScore ≤ 100 ∧ 0 ≤ b.confidence ∧ b.confidence ≤ 1

lemma jsRound_eq (x : ℚ) : jsRound x = ⌊x + 1 / 2⌋ := by
  rw [jsRound, Rat.floor_def' (x + 1 / 2), Rat.floor_def]

lemma le_jsRound {a : ℤ} {x : ℚ} (h : (a : ℚ) ≤ x) : a ≤ jsRound x := by
  rw [jsRound_eq]
  exact Int.le_floor.mpr (by linarith)

lemma jsRound_le {b : ℤ} {x : ℚ} (h : x ≤ (b : ℚ)) : jsRound x ≤ b := by
  rw [jsRound_eq]
  have h1 : ⌊x + 1 / 2⌋ ≤ ⌊(b : ℚ) + 1 / 2⌋ := Int.floor_mono (by linarith)
  have h2 : ⌊(b : ℚ) + 1 / 2⌋ = b + ⌊(1 / 2 : ℚ)⌋ := Int.floor_int_add b (1 / 2)
  have h3 : ⌊(1 / 2 : ℚ)⌋ = 0 := by norm_num [Int.floor_eq_iff]
  omega

lemma jsRound_intCast (n : ℤ) : jsRound ((n : ℚ)) = n := by
  rw [jsRound_eq]
  have h2 : ⌊(n : ℚ) + 1 / 2⌋ = n + ⌊(1 / 2 : ℚ)⌋ := Int.floor_int_add n (1 / 2)
  have h3 : ⌊(1 / 2 : ℚ)⌋ = 0 := by norm_num [Int.floor_eq_iff]
  omega

lemma clamp_mem {lo hi : ℚ} (x : ℚ) (h : lo ≤ hi) :
    lo ≤ max lo (min hi x) ∧ max lo (min hi x) ≤ hi :=
  ⟨le_max_left _ _, max_le h (min_le_left _ _)⟩

/-- Case analysis of the keyword-heuristic score/label/confidence computation:
under the two facts the caller guarantees (the source modifier is one of
-25/0/25, and a nonzero modifier comes with a keyword-score boost), every
branch lands in one of five label/score-range buckets, and the confidence lies
in [0.5, 0.85]. -/
lemma ctnContentScoreCore_spec (L C N : ℕ) (sm : ℤ) (r1 r2 : ℚ)
    (hsm0 : sm ≠ 0 → 0 < L + C)
    (s : ℚ) (lbl : String) (conf : ℚ)
    (h : ctnContentScoreCore L C N sm r1 r2 = (s, lbl, conf)) :
    ((lbl = "Highly Liberal" ∧ 15 ≤ s ∧ s ≤ 25) ∨
     (lbl = "Liberal" ∧ 25 < s ∧ s ≤ 40) ∨
     (lbl = "Neutral/Centrist" ∧ s = 50) ∨
     (lbl = "Conservative" ∧ 60 ≤ s ∧ s < 75) ∨
     (lbl = "Highly Conservative" ∧ 75 ≤ s ∧ s ≤ 85)) ∧
    (1 / 2 ≤ conf ∧ conf ≤ 85 / 100) := by
  rw [ctnContentScoreCore] at h
  by_cases h0 : 0 < L + C
  · rw [if_pos h0] at h
    by_cases hA : C < L ∨ sm < 0
    · rw [if_pos hA] at h
      dsimp only at h
      set d := max (0.3 : ℚ)
        (((L : ℚ) + |(sm : ℚ)|) / max 1 (((L + C : ℕ) : ℚ) + 10)) with hd
      have hd3 : (0.3 : ℚ) ≤ d := le_max_left _ _
      by_cases hlab : max (15 : ℚ) (50 - d * 35) ≤ 25
      · rw [if_pos hlab] at h
        simp only [Prod.mk.injEq] at h
        obtain ⟨rfl, rfl, rfl⟩ := h
        refine ⟨Or.inl ⟨rfl, le_max_left _ _, hlab⟩, ?_,
          le_of_le_of_eq (min_le_left _ _) (by norm_num)⟩
        exact le_min (by norm_num) (by nlinarith)
      · rw [if_neg hlab] at h
        simp only [Prod.mk.injEq] at h
        obtain ⟨rfl, rfl, rfl⟩ := h
        push_neg at hlab
        refine ⟨Or.inr (Or.inl ⟨rfl, hlab, ?_⟩), ?_,
          le_of_le_of_eq (min_le_left _ _) (by norm_num)⟩
        · exact max_le (by norm_num) (by nlinarith)
        · exact le_min (by norm_num) (by nlinarith)
    · rw [if_neg hA] at h
      by_cases hB : L < C ∨ 0 < sm
      · rw [if_pos hB] at h
        dsimp only at h
        set d := max (0.3 : ℚ)
          (((C : ℚ) + |(sm : ℚ)|) / max 1 (((L + C : ℕ) : ℚ) + 10)) with hd
        have hd3 : (0.3 : ℚ) ≤ d := le_max_left _ _
        by_cases hlab : (75 : ℚ) ≤ min 85 (50 + d * 35)
        · rw [if_pos hlab] at h
          simp only [Prod.mk.injEq] at h
          obtain ⟨rfl, rfl, rfl⟩ := h
          exact ⟨Or.inr (Or.inr (Or.inr (Or.inr ⟨rfl, hlab, min_le_left _ _⟩))),
            le_min (by norm_num) (by nlinarith),
            le_of_le_of_eq (min_le_left _ _) (by norm_num)⟩
        · rw [if_neg hlab] at h
          simp only [Prod.mk.injEq] at h
          obtain ⟨rfl, rfl, rfl⟩ := h
          push_neg at hlab
          refine ⟨Or.inr (Or.inr (Or.inr (Or.inl ⟨rfl, ?_, hlab⟩))),
            le_min (by norm_num) (by nlinarith),
            le_of_le_of_eq (min_le_left _ _) (by norm_num)⟩
          exact le_min (by norm_num) (by nlinarith)
      · rw [if_neg hB] at h
        push_neg at hA hB
        have hsmz : sm = 0 := le_antisymm hB.2 hA.2
        by_cases hneu : ((L + C : ℕ) : ℚ) * 1.5 < (N : ℚ) ∧ L + C < 3
        · rw [if_pos hneu] at h
          simp only [Prod.mk.injEq] at h
          obtain ⟨rfl, rfl, rfl⟩ := h
          exact ⟨Or.inr (Or.inr (Or.inl ⟨rfl, by rw [hsmz]; norm_num⟩)),
            by norm_num, by norm_num⟩
        · rw [if_neg hneu] at h
          by_cases hr : (0.5 : ℚ) < r1
          · rw [if_pos hr] at h
            simp only [Prod.mk.injEq] at h
            obtain ⟨rfl, rfl, rfl⟩ := h
            exact ⟨Or.inr (Or.inl ⟨rfl, by norm_num, by norm_num⟩),
              by norm_num, by norm_num⟩
          · rw [if_neg hr] at h
            simp only [Prod.mk.injEq] at h
            obtain ⟨rfl, rfl, rfl⟩ := h
            exact ⟨Or.inr (Or.inr (Or.inr (Or.inl ⟨rfl, by norm_num, by norm_num⟩))),
              by norm_num, by norm_num⟩
  · rw [if_neg h0] at h
    have hsmz : sm = 0 := by
      by_contra hne
      exact h0 (hsm0 hne)
    by_cases hr : (0.6 : ℚ) < r1
    · rw [if_pos hr] at h
      dsimp only at h
      by_cases hr2 : (0.5 : ℚ) < r2
      · rw [if_pos hr2, if_pos (by norm_num : (35 : ℚ) < 50)] at h
        simp only [Prod.mk.injEq] at h
        obtain ⟨rfl, rfl, rfl⟩ := h
        exact ⟨Or.inr (Or.inl ⟨rfl, by norm_num, by norm_num⟩), by norm_num, by norm_num⟩
      · rw [if_neg hr2, if_neg (by norm_num : ¬(65 : ℚ) < 50)] at h
        simp only [Prod.mk.injEq] at h
        obtain ⟨rfl, rfl, rfl⟩ := h
        exact ⟨Or.inr (Or.inr (Or.inr (Or.inl ⟨rfl, by norm_num, by norm_num⟩))),
          by norm_num, by norm_num⟩
    · rw [if_neg hr] at h
      simp only [Prod.mk.injEq] at h
      obtain ⟨rfl, rfl, rfl⟩ := h
      exact ⟨Or.inr (Or.inr (Or.inl ⟨rfl, by rw [hsmz]; norm_num⟩)),
        by norm_num, by norm_num⟩

/-- Bucket/confidence/integrality guarantees of the tier-3 assembly, for any
scores with the boost/modifier coupling the wrapper establishes. -/
lemma ctnContentBasedResult_spec (L C N : ℕ) (sm : ℤ) (source : String) (r1 r2 : ℚ)
    (hsm0 : sm ≠ 0 → 0 < L + C) :
    heuristicLabelRanges (ctnContentBasedResult L C N sm source r1 r2) ∧
    (1 / 2 ≤ (ctnContentBasedResult L C N sm source r1 r2).confidence ∧
      (ctnContentBasedResult L C N sm source r1 r2).confidence ≤ 85 / 100) ∧
    ∃ n : ℤ, (ctnContentBasedResult L C N sm source r1 r2).biasScore = (n : ℚ) := by
  obtain ⟨⟨s, lbl, conf⟩, hp⟩ : ∃ p, ctnContentScoreCore L C N sm r1 r2 = p := ⟨_, rfl⟩
  have spec := ctnContentScoreCore_spec L C N sm r1 r2 hsm0 s lbl conf hp
  obtain ⟨hbucket, hconf⟩ := spec
  have hb : ctnContentBasedResult L C N sm source r1 r2 =
      { biasScore := ((jsRound s : ℤ) : ℚ)
        biasLabel := lbl
        confidence := conf
        reasoning := "Content-based analysis: Detected " ++ toString L ++
          " liberal, " ++ toString C ++ " conservative, and " ++
          toString N ++ " neutral indicators in the article content from " ++ source
        keyIndicators := ["content-analysis", "keyword-detection", "linguistic-patterns"]
        sourceReliability := some "Unknown"
        analysisMethod := "CTN content-based linguistic analysis" } := by
    rw [ctnContentBasedResult, hp]
  rw [hb, heuristicLabelRanges]
  dsimp only
  refine ⟨?_, hconf, ⟨jsRound s, rfl⟩⟩
  rcases hbucket with ⟨hl, h1, h2⟩ | ⟨hl, h1, h2⟩ | ⟨hl, h1⟩ | ⟨hl, h1, h2⟩ | ⟨hl, h1, h2⟩
  · refine Or.inl ⟨hl, ?_, ?_⟩
    · exact_mod_cast le_jsRound (a := 15) (by exact_mod_cast h1)
    · exact_mod_cast jsRound_le (b := 25) (by exact_mod_cast h2)
  · refine Or.inr (Or.inl ⟨hl, ?_, ?_⟩)
    · exact_mod_cast le_jsRound (a := 25) (by exact_mod_cast h1.le)
    · exact_mod_cast jsRound_le (b := 40) (by exact_mod_cast h2)
  · refine Or.inr (Or.inr (Or.inl ⟨hl, ?_⟩))
    rw [h1]
    have h50 : jsRound (50 : ℚ) = 50 := by
      rw [jsRound_eq]
      norm_num [Int.floor_eq_iff]
    rw [h50]
    norm_num
  · refine Or.inr (Or.inr (Or.inr (Or.inl ⟨hl, ?_, ?_⟩)))
    · exact_mod_cast le_jsRound (a := 60) (by exact_mod_cast h1)
    · exact_mod_cast jsRound_le (b := 75) (by exact_mod_cast h2.le)
  · refine Or.inr (Or.inr (Or.inr (Or.inr ⟨hl, ?_, ?_⟩)))
    · exact_mod_cast le_jsRound (a := 75) (by exact_mod_cast h1)
    · exact_mod_cast jsRound_le (b := 85) (by exact_mod_cast h2)

/-- The same guarantees for the full tier-3 function on arbitrary inputs. -/
lemma ctnAnalyzeContentBasedBias_spec (title content source : String) (r1 r2 : ℚ) :
    heuristicLabelRanges (ctnAnalyzeContentBasedBias title content source r1 r2) ∧
    (1 / 2 ≤ (ctnAnalyzeContentBasedBias title content source r1 r2).confidence ∧
      (ctnAnalyzeContentBasedBias title content source r1 r2).confidence ≤ 85 / 100) ∧
    ∃ n : ℤ, (ctnAnalyzeContentBasedBias title content source r1 r2).biasScore = (n : ℚ) := by
  rw [ctnAnalyzeContentBasedBias]
  apply ctnContentBasedResult_spec
  intro hne
  by_cases hl : (liberalSources.any fun src => jsIncludes (jsToLower source) src) = true
  · simp only [hl, if_true]
    omega
  · simp only [hl, if_false]
    by_cases hc : (conservativeSources.any fun src => jsIncludes (jsToLower source) src) = true
    · simp only [Bool.not_eq_true] at hl
      simp only [hl, hc, Bool.not_false, Bool.true_and, if_true]
      omega
    · simp only [Bool.not_eq_true] at hl hc
      simp only [hl, hc, Bool.not_false, Bool.true_and, if_false] at hne
      simp at hne

lemma exists_append_assoc (a x b y c z d w : String) :
    ∃ rest, a ++ x ++ b ++ y ++ c ++ z ++ d ++ w = a ++ rest :=
  ⟨x ++ (b ++ (y ++ (c ++ (z ++ (d ++ w))))), by simp [String.append_assoc]⟩

lemma tier1_inRange (p : ParsedBias) : biasInRange (ctnTier1Result p) := by
  rw [biasInRange, ctnTier1Result]
  dsimp only
  exact ⟨(clamp_mem _ (by norm_num)).1, (clamp_mem _ (by norm_num)).2,
    (clamp_mem _ (by norm_num)).1, (clamp_mem _ (by norm_num)).2⟩

lemma tier2_inRange (sa : ParsedSource) (ca : ParsedContent) :
    biasInRange (ctnTier2Combine sa ca) := by
  rw [biasInRange, ctnTier2Combine]
  dsimp only
  exact ⟨(clamp_mem _ (by norm_num)).1, (clamp_mem _ (by norm_num)).2,
    (clamp_mem _ (by norm_num)).1, (clamp_mem _ (by norm_num)).2⟩

lemma tier3_inRange (title content source : String) (r1 r2 : ℚ) :
    biasInRange (ctnAnalyzeContentBasedBias title content source r1 r2) := by
  obtain ⟨hb, ⟨hc1, hc2⟩, -⟩ := ctnAnalyzeContentBasedBias_spec title content source r1 r2
  rw [heuristicLabelRanges] at hb
  rw [biasInRange]
  refine ⟨?_, ?_, by linarith, by linarith⟩ <;>
    rcases hb with ⟨-, h1, h2⟩ | ⟨-, h1, h2⟩ | ⟨-, h1⟩ | ⟨-, h1, h2⟩ | ⟨-, h1, h2⟩ <;>
    linarith

lemma sourceBased_inRange (sourceCache : SourceCache) (source title content : String)
    (t2s : Except Unit ParsedSource) (t2c : Except Unit ParsedContent) (r1 r2 : ℚ) :
    biasInRange
      (ctnGetSourceBasedBiasAnalysis sourceCache source title content t2s t2c r1 r2).1 := by
  rw [ctnGetSourceBasedBiasAnalysis.eq_def]
  dsimp only
  split
  · split
    · exact tier2_inRange _ _
    · exact tier3_inRange _ _ _ _ _
  · split
    · exact tier3_inRange _ _ _ _ _
    · split
      · exact tier2_inRange _ _
      · exact tier3_inRange _ _ _ _ _

lemma pipeline_inRange (sourceCache : SourceCache) (content title source : String)
    (t1 : Except Unit ParsedBias) (t2s : Except Unit ParsedSource)
    (t2c : Except Unit ParsedContent) (r1 r2 : ℚ) :
    biasInRange
      (ctnAnalyzePoliticalBias [] sourceCache content title source t1 t2s t2c r1 r2).1 := by
  rw [ctnAnalyzePoliticalBias.eq_def]
  dsimp only [cacheGet, List.lookup]
  cases t1 with
  | ok p => exact tier1_inRange p
  | error e => exact sourceBased_inRange _ _ _ _ _ _ _ _

/-- C1: every BiasAnalysis produced by the bias-classification pipeline has
`0 ≤ biasScore ≤ 100` and `0 ≤ confidence ≤ 1`, whichever of the three tiers
produced it: the tier-1 sanitizer and the tier-2 combiner clamp score and
confidence independently for arbitrary parsed model output, the tier-3
heuristic stays in range on every input, and hence so does a full pipeline run
for any outcome of the external calls. -/
theorem c1_bias_output_ranges :
    (∀ p : ParsedBias, biasInRange (ctnTier1Result p)) ∧
    (∀ (sa : ParsedSource) (ca : ParsedContent), biasInRange (ctnTier2Combine sa ca)) ∧
    (∀ (title content source : String) (r1 r2 : ℚ),
      biasInRange (ctnAnalyzeContentBasedBias title content source r1 r2)) ∧
    (∀ (sourceCache : SourceCache) (content title source : String)
      (t1 : Except Unit ParsedBias) (t2s : Except Unit ParsedSource)
      (t2c : Except Unit ParsedContent) (r1 r2 : ℚ),
      biasInRange
        (ctnAnalyzePoliticalBias [] sourceCache content title source t1 t2s t2c r1 r2).1) :=
  ⟨tier1_inRange, tier2_inRange, tier3_inRange, pipeline_inRange⟩

/-- C2: the pipeline makes exactly three ordered attempts with no retry within
a tier: a successful tier-1 call yields the tier-1 result whatever the other
oracles would answer; tier 2 is consulted only after a tier-1 failure, and a
successful pair of tier-2 calls yields the tier-2 combination for any random
draws; the keyword heuristic is consulted exactly when the tier-2 source call
or its follow-up content call fails. -/
theorem c2_three_tier_dispatch :
    (∀ (sourceCache : SourceCache) (content title source : String) (p : ParsedBias)
      (t2s : Except Unit ParsedSource) (t2c : Except Unit ParsedContent) (r1 r2 : ℚ),
      (ctnAnalyzePoliticalBias [] sourceCache content title source
        (.ok p) t2s t2c r1 r2).1 = ctnTier1Result p) ∧
    (∀ (content title source : String) (sa : ParsedSource) (ca : ParsedContent) (r1 r2 : ℚ),
      (ctnAnalyzePoliticalBias [] [] content title source
        (.error ()) (.ok sa) (.ok ca) r1 r2).1 = ctnTier2Combine sa ca) ∧
    (∀ (content title source : String) (t2c : Except Unit ParsedContent) (r1 r2 : ℚ),
      (ctnAnalyzePoliticalBias [] [] content title source
        (.error ()) (.error ()) t2c r1 r2).1 =
        ctnAnalyzeContentBasedBias title content source r1 r2) ∧
    (∀ (content title source : String) (sa : ParsedSource) (r1 r2 : ℚ),
      (ctnAnalyzePoliticalBias [] [] content title source
        (.error ()) (.ok sa) (.error ()) r1 r2).1 =
        ctnAnalyzeContentBasedBias title content source r1 r2) :=
  ⟨fun _ _ _ _ _ _ _ _ _ => rfl, fun _ _ _ _ _ _ _ => rfl,
   fun _ _ _ _ _ _ => rfl, fun _ _ _ _ _ _ => rfl⟩

/-- C3: on every title, content and source (and any random draws) the keyword
heuristic returns a well-formed BiasAnalysis: an integer score, one of the five
labels, a confidence in range, the reasoning built from the fixed template, the
fixed key-indicator list and the fixed analysis-method tag.  (Totality - the
JS function never throwing - corresponds to `ctnAnalyzeContentBasedBias` being
a total function.) -/
theorem c3_keyword_tier_wellformed (title content source : String) (r1 r2 : ℚ) :
    (∃ n : ℤ, (ctnAnalyzeContentBasedBias title content source r1 r2).biasScore = (n : ℚ)) ∧
    (ctnAnalyzeContentBasedBias title content source r1 r2).biasLabel ∈
      (["Highly Liberal", "Liberal", "Neutral/Centrist", "Conservative",
        "Highly Conservative"] : List String) ∧
    (0 ≤ (ctnAnalyzeContentBasedBias title content source r1 r2).confidence ∧
      (ctnAnalyzeContentBasedBias title content source r1 r2).confidence ≤ 1) ∧
    (∃ rest : String, (ctnAnalyzeContentBasedBias title content source r1 r2).reasoning =
      "Content-based analysis: Detected " ++ rest) ∧
    (ctnAnalyzeContentBasedBias title content source r1 r2).keyIndicators =
      ["content-analysis", "keyword-detection", "linguistic-patterns"] ∧
    (ctnAnalyzeContentBasedBias title content source r1 r2).analysisMethod =
      "CTN content-based linguistic analysis" := by
  obtain ⟨hb, ⟨hc1, hc2⟩, hint⟩ := ctnAnalyzeContentBasedBias_spec title content source r1 r2
  rw [heuristicLabelRanges] at hb
  refine ⟨hint, ?_, ⟨by linarith, by linarith⟩, ?_, rfl, rfl⟩
  · rcases hb with ⟨h, -⟩ | ⟨h, -⟩ | ⟨h, -⟩ | ⟨h, -⟩ | ⟨h, -⟩ <;> simp [h]
  · rw [ctnAnalyzeContentBasedBias, ctnContentBasedResult]
    dsimp only
    exact exists_append_assoc _ _ _ _ _ _ _ _

/-- On an input with zero liberal/conservative keyword scores and no
source-list match, the heuristic reduces to the result assembly on zero scores
and zero modifier (the neutral keyword count is irrelevant there). -/
lemma heuristic_no_signal_eq (title content source : String) (r1 r2 : ℚ)
    (hL : keywordScore liberalKeywords (jsToLower title) (jsToLower content) = 0)
    (hC : keywordScore conservativeKeywords (jsToLower title) (jsToLower content) = 0)
    (hsL : (liberalSources.any fun src => jsIncludes (jsToLower source) src) = false)
    (hsC : (conservativeSources.any fun src => jsIncludes (jsToLower source) src)
      = false) :
    ctnAnalyzeContentBasedBias title content source r1 r2 =
      ctnContentBasedResult 0 0
        (keywordScore neutralKeywords (jsToLower title) (jsToLower content)) 0
        source r1 r2 := by
  rw [ctnAnalyzeContentBasedBias]
  simp [hL, hC, hsL, hsC]

/-- On every no-signal input, the score is a function of the random draws
alone: the liberal anchor 35 when both draws fire, the conservative anchor 65
when only the first fires, the untouched default 50 otherwise. -/
lemma heuristic_no_signal_score (title content source : String) (r1 r2 : ℚ)
    (hL : keywordScore liberalKeywords (jsToLower title) (jsToLower content) = 0)
    (hC : keywordScore conservativeKeywords (jsToLower title) (jsToLower content) = 0)
    (hsL : (liberalSources.any fun src => jsIncludes (jsToLower source) src) = false)
    (hsC : (conservativeSources.any fun src => jsIncludes (jsToLower source) src)
      = false) :
    (ctnAnalyzeContentBasedBias title content source r1 r2).biasScore =
      if 0.6 < r1 then (if 0.5 < r2 then (35 : ℚ) else 65) else 50 := by
  rw [heuristic_no_signal_eq title content source r1 r2 hL hC hsL hsC,
    ctnContentBasedResult]
  dsimp only
  rw [ctnContentScoreCore]
  rw [if_neg (by norm_num : ¬(0 : ℕ) < 0 + 0)]
  by_cases hr1 : (0.6 : ℚ) < r1
  · rw [if_pos hr1, if_pos hr1]
    by_cases hr2 : (0.5 : ℚ) < r2
    · rw [if_pos hr2]
      dsimp only
      rw [jsRound_eq]
      norm_num [Int.floor_eq_iff]
    · rw [if_neg hr2]
      dsimp only
      rw [jsRound_eq]
      norm_num [Int.floor_eq_iff]
  · rw [if_neg hr1, if_neg hr1]
    dsimp only
    rw [jsRound_eq]
    push_cast
    norm_num [Int.floor_eq_iff]

/-- On every no-signal input, the label likewise depends only on the draws. -/
lemma heuristic_no_signal_label (title content source : String) (r1 r2 : ℚ)
    (hL : keywordScore liberalKeywords (jsToLower title) (jsToLower content) = 0)
    (hC : keywordScore conservativeKeywords (jsToLower title) (jsToLower content) = 0)
    (hsL : (liberalSources.any fun src => jsIncludes (jsToLower source) src) = false)
    (hsC : (conservativeSources.any fun src => jsIncludes (jsToLower source) src)
      = false) :
    (ctnAnalyzeContentBasedBias title content source r1 r2).biasLabel =
      if 0.6 < r1 then (if 0.5 < r2 then "Liberal" else "Conservative")
      else "Neutral/Centrist" := by
  rw [heuristic_no_signal_eq title content source r1 r2 hL hC hsL hsC,
    ctnContentBasedResult]
  dsimp only
  rw [ctnContentScoreCore]
  rw [if_neg (by norm_num : ¬(0 : ℕ) < 0 + 0)]
  by_cases hr1 : (0.6 : ℚ) < r1
  · rw [if_pos hr1, if_pos hr1]
    by_cases hr2 : (0.5 : ℚ) < r2
    · rw [if_pos hr2, if_pos hr2]
      dsimp only
      rw [if_pos (by norm_num : (35 : ℚ) < 50)]
    · rw [if_neg hr2, if_neg hr2]
      dsimp only
      rw [if_neg (by norm_num : ¬(65 : ℚ) < 50)]
  · rw [if_neg hr1, if_neg hr1]

/-- C9: for every input to the keyword heuristic in which no liberal or
conservative keyword is detected in the title or body and the source matches
neither hard-coded source list, the score and label are assigned from the
pseudo-random draws alone: score 35 (Liberal) when the first draw exceeds 0.6
and the second exceeds 0.5, score 65 (Conservative) when only the first draw
fires, and the untouched neutral default 50 (Neutral/Centrist) otherwise - so
every score lies between the two anchors inclusive, and on each such input
there exist two runs whose score and label both differ: the function is not
deterministic in (title, content, source). -/
theorem c9_heuristic_nondeterminism (title content source : String)
    (hL : keywordScore liberalKeywords (jsToLower title) (jsToLower content) = 0)
    (hC : keywordScore conservativeKeywords (jsToLower title) (jsToLower content) = 0)
    (hsL : (liberalSources.any fun src => jsIncludes (jsToLower source) src) = false)
    (hsC : (conservativeSources.any fun src => jsIncludes (jsToLower source) src)
      = false) :
    (∀ r1 r2 : ℚ,
      (ctnAnalyzeContentBasedBias title content source r1 r2).biasScore =
        if 0.6 < r1 then (if 0.5 < r2 then (35 : ℚ) else 65) else 50) ∧
    (∀ r1 r2 : ℚ,
      (ctnAnalyzeContentBasedBias title content source r1 r2).biasLabel =
        if 0.6 < r1 then (if 0.5 < r2 then "Liberal" else "Conservative")
        else "Neutral/Centrist") ∧
    (∀ r1 r2 : ℚ,
      35 ≤ (ctnAnalyzeContentBasedBias title content source r1 r2).biasScore ∧
      (ctnAnalyzeContentBasedBias title content source r1 r2).biasScore ≤ 65) ∧
    (∃ r1 r2 r3 r4 : ℚ,
      (ctnAnalyzeContentBasedBias title content source r1 r2).biasScore ≠
        (ctnAnalyzeContentBasedBias title content source r3 r4).biasScore ∧
      (ctnAnalyzeContentBasedBias title content source r1 r2).biasLabel ≠
        (ctnAnalyzeContentBasedBias title content source r3 r4).biasLabel) := by
  have hscore := fun r1 r2 =>
    heuristic_no_signal_score title content source r1 r2 hL hC hsL hsC
  have hlabel := fun r1 r2 =>
    heuristic_no_signal_label title content source r1 r2 hL hC hsL hsC
  refine ⟨hscore, hlabel, ?_, ?_⟩
  · intro r1 r2
    rw [hscore r1 r2]
    split_ifs <;> norm_num
  · refine ⟨7 / 10, 6 / 10, 1 / 2, 1 / 2, ?_, ?_⟩
    · rw [hscore (7 / 10) (6 / 10), hscore (1 / 2) (1 / 2),
        if_pos (by norm_num : (0.6 : ℚ) < 7 / 10),
        if_pos (by norm_num : (0.5 : ℚ) < 6 / 10),
        if_neg (by norm_num : ¬(0.6 : ℚ) < 1 / 2)]
      norm_num
    · rw [hlabel (7 / 10) (6 / 10), hlabel (1 / 2) (1 / 2),
        if_pos (by norm_num : (0.6 : ℚ) < 7 / 10),
        if_pos (by norm_num : (0.5 : ℚ) < 6 / 10),
        if_neg (by norm_num : ¬(0.6 : ℚ) < 1 / 2)]
      simp

/-- Witness for C9 at a concrete no-signal input: the hypotheses hold for
title "x", content "y", source "example", and two runs differ. -/
theorem c9_heuristic_nondeterminism_witness :
    keywordScore liberalKeywords (jsToLower "x") (jsToLower "y") = 0 ∧
    keywordScore conservativeKeywords (jsToLower "x") (jsToLower "y") = 0 ∧
    (liberalSources.any fun src => jsIncludes (jsToLower "example") src) = false ∧
    (conservativeSources.any fun src => jsIncludes (jsToLower "example") src) = false ∧
    (∃ r1 r2 r3 r4 : ℚ,
      (ctnAnalyzeContentBasedBias "x" "y" "example" r1 r2).biasScore ≠
        (ctnAnalyzeContentBasedBias "x" "y" "example" r3 r4).biasScore ∧
      (ctnAnalyzeContentBasedBias "x" "y" "example" r1 r2).biasLabel ≠
        (ctnAnalyzeContentBasedBias "x" "y" "example" r3 r4).biasLabel) :=
  ⟨by decide, by decide, by decide, by decide,
   (c9_heuristic_nondeterminism "x" "y" "example"
     (by decide) (by decide) (by decide) (by decide)).2.2.2⟩

/-- C8 counterexample: a pipeline run whose tier-1 model response reports score
10 with label Conservative is returned as-is, so its label is not the rubric
bucket of its score (score 10 falls in the 0-20 Highly Liberal bucket). -/
theorem c8_rubric_counterexample :
    (ctnAnalyzePoliticalBias [] [] "c" "t" "s"
        (.ok ⟨some 10, some "Conservative", some (9 / 10), some "r", some []⟩)
        (.error ()) (.error ()) 0 0).1.biasScore = 10 ∧
    (ctnAnalyzePoliticalBias [] [] "c" "t" "s"
        (.ok ⟨some 10, some "Conservative", some (9 / 10), some "r", some []⟩)
        (.error ()) (.error ()) 0 0).1.biasLabel = "Conservative" ∧
    specRubricLabel 10 = "Highly Liberal" ∧
    (ctnAnalyzePoliticalBias [] [] "c" "t" "s"
        (.ok ⟨some 10, some "Conservative", some (9 / 10), some "r", some []⟩)
        (.error ()) (.error ()) 0 0).1.biasLabel ≠
      specRubricLabel
        ((ctnAnalyzePoliticalBias [] [] "c" "t" "s"
          (.ok ⟨some 10, some "Conservative", some (9 / 10), some "r", some []⟩)
          (.error ()) (.error ()) 0 0).1.biasScore) := by
  decide

/-- C8 amended: the pipeline does not derive the label from the rubric bucket
of the score.  Tiers 1 and 2 pass the model-reported label through (with the
Neutral/Centrist default for a falsy label), and the keyword tier assigns
labels by its own thresholds, landing in the buckets
Highly Liberal 15-25 / Liberal 25-40 / Neutral 50 / Conservative 60-75 /
Highly Conservative 75-85 of the rounded score. -/
theorem c8_label_assignment_amended :
    (∀ p : ParsedBias,
      (ctnTier1Result p).biasLabel = jsOrStr p.biasLabel "Neutral/Centrist") ∧
    (∀ (sa : ParsedSource) (ca : ParsedContent),
      (ctnTier2Combine sa ca).biasLabel =
        jsOrStr ca.finalBiasLabel (jsOrStr sa.biasLabel "Neutral/Centrist")) ∧
    (∀ (title content source : String) (r1 r2 : ℚ),
      heuristicLabelRanges (ctnAnalyzeContentBasedBias title content source r1 r2)) :=
  ⟨fun _ => rfl, fun _ _ => rfl,
   fun title content source r1 r2 =>
     (ctnAnalyzeContentBasedBias_spec title content source r1 r2).1⟩

/-- C10 counterexample: when the model reports a negative score and a negative
confidence, tier 1 returns biasScore exactly 0 and confidence exactly 0, so
"tier 1 can never return a biasScore of exactly 0 or a confidence of exactly 0"
is false as stated. -/
theorem c10_exact_zero_counterexample :
    (ctnTier1Result ⟨some (-5), some "Liberal", some (-1), some "r", some []⟩).biasScore = 0 ∧
    (ctnTier1Result ⟨some (-5), some "Liberal", some (-1), some "r", some []⟩).confidence
      = 0 := by
  decide

/-- C10 amended: tier 1 substitutes the defaults for falsy parsed fields - a
parsed biasScore of 0 or an absent one yields 50, a parsed confidence of 0 or
an absent one yields 0.5 - and an output of exactly 0 is impossible whenever
the parsed field is absent or nonnegative (only a negative model value clamps
to exactly 0). -/
theorem c10_tier1_falsy_defaults (p : ParsedBias) :
    ((p.biasScore = some 0 ∨ p.biasScore = none) → (ctnTier1Result p).biasScore = 50) ∧
    ((p.confidence = some 0 ∨ p.confidence = none) →
      (ctnTier1Result p).confidence = 1 / 2) ∧
    (∀ q : ℚ, p.biasScore = some q → 0 ≤ q → (ctnTier1Result p).biasScore ≠ 0) ∧
    (∀ q : ℚ, p.confidence = some q → 0 ≤ q → (ctnTier1Result p).confidence ≠ 0) := by
  rw [ctnTier1Result]
  dsimp only
  refine ⟨?_, ?_, ?_, ?_⟩
  · rintro (h | h) <;> rw [h] <;> norm_num [jsOrQ]
  · rintro (h | h) <;> rw [h] <;> norm_num [jsOrQ]
  · rintro q hq hq0
    rw [hq]
    simp only [jsOrQ]
    by_cases h0 : q = 0
    · rw [if_pos h0]; norm_num
    · rw [if_neg h0]
      have hpos : 0 < q := lt_of_le_of_ne hq0 (Ne.symm h0)
      have hmin : 0 < min (100 : ℚ) q := lt_min (by norm_num) hpos
      rw [max_eq_right hmin.le]
      exact ne_of_gt hmin
  · rintro q hq hq0
    rw [hq]
    simp only [jsOrQ]
    by_cases h0 : q = 0
    · rw [if_pos h0]; norm_num
    · rw [if_neg h0]
      have hpos : 0 < q := lt_of_le_of_ne hq0 (Ne.symm h0)
      have hmin : 0 < min (1 : ℚ) q := lt_min (by norm_num) hpos
      rw [max_eq_right hmin.le]
      exact ne_of_gt hmin

/-- Witness for C10's amended theorem at concrete parsed responses. -/
theorem c10_tier1_falsy_defaults_witness :
    (ctnTier1Result ⟨some 0, none, some 0, none, none⟩).biasScore = 50 ∧
    (ctnTier1Result ⟨some 0, none, some 0, none, none⟩).confidence = 1 / 2 ∧
    (ctnTier1Result ⟨some 42, none, some (3 / 10), none, none⟩).biasScore ≠ 0 ∧
    (ctnTier1Result ⟨some 42, none, some (3 / 10), none, none⟩).confidence ≠ 0 :=
  ⟨(c10_tier1_falsy_defaults _).1 (Or.inl rfl),
   (c10_tier1_falsy_defaults _).2.1 (Or.inl rfl),
   (c10_tier1_falsy_defaults _).2.2.1 42 rfl (by norm_num),
   (c10_tier1_falsy_defaults _).2.2.2 (3 / 10) rfl (by norm_num)⟩

lemma dedup_url_not_seen {seen : List String} {l : List ExaResult} {r : ExaResult}
    (h : r ∈ dedupByUrlAux seen l) : r.url ∉ seen := by
  induction l generalizing seen with
  | nil => simp [dedupByUrlAux] at h
  | cons a as ih =>
    rw [dedupByUrlAux] at h
    by_cases ha : a.url ∈ seen
    · rw [if_pos ha] at h
      exact ih h
    · rw [if_neg ha] at h
      rcases List.mem_cons.mp h with rfl | hmem
      · exact ha
      · intro hr
        exact ih hmem (List.mem_cons_of_mem _ hr)

lemma dedup_urls_nodup (l : List ExaResult) (seen : List String) :
    ((dedupByUrlAux seen l).map (fun r => r.url)).Nodup := by
  induction l generalizing seen with
  | nil => simp [dedupByUrlAux]
  | cons a as ih =>
    rw [dedupByUrlAux]
    by_cases ha : a.url ∈ seen
    · rw [if_pos ha]
      exact ih seen
    · rw [if_neg ha]
      simp only [List.map_cons, List.nodup_cons]
      refine ⟨?_, ih _⟩
      intro hmem
      obtain ⟨r, hr, hurl⟩ := List.mem_map.mp hmem
      have hnot := dedup_url_not_seen hr
      rw [hurl] at hnot
      exact hnot (List.mem_cons_self _ _)

lemma dedup_find_eq (l : List ExaResult) (seen : List String) (u : String)
    (hu : u ∉ seen) :
    (dedupByUrlAux seen l).find? (fun r => r.url == u) =
      l.find? (fun r => r.url == u) := by
  have hcons : ∀ (x : ExaResult) (xs : List ExaResult),
      List.find? (fun r => r.url == u) (x :: xs) =
        cond (x.url == u) (some x) (List.find? (fun r => r.url == u) xs) :=
    fun _ _ => rfl
  induction l generalizing seen with
  | nil => simp [dedupByUrlAux]
  | cons a as ih =>
    rw [dedupByUrlAux]
    by_cases ha : a.url ∈ seen
    · rw [if_pos ha, hcons]
      have hne : (a.url == u) = false := by
        rw [beq_eq_false_iff_ne]
        rintro rfl
        exact hu ha
      rw [hne, cond_false]
      exact ih seen hu
    · rw [if_neg ha, hcons, hcons]
      cases hau : (a.url == u) with
      | true => simp only [cond_true]
      | false =>
        simp only [cond_false]
        refine ih (a.url :: seen) ?_
        intro hmem
        rcases List.mem_cons.mp hmem with heq | hmem2
        · rw [beq_eq_false_iff_ne] at hau
          exact hau heq.symm
        · exact hu hmem2

lemma ctnTransformResult_url (now : ℚ) (r : ExaResult) :
    (ctnTransformResult now r).url = r.url := rfl

/-- C5: on every successful provider response, the article list returned by
`ctnSearchNewsArticles` has pairwise distinct url values, and the
de-duplication pass keeps, for every url, exactly the first-seen hit of the
merged provider results (the first match of `find?` is unchanged). -/
theorem c5_dedup_first_seen (srs : List (Option (List ExaResult)))
    (query sources : String) (limit : ℕ) (now : ℚ) :
    ((ctnSearchNewsArticles [] query sources limit (.ok srs) now).1.articles.map
      (fun a => a.url)).Nodup ∧
    (∀ u : String,
      (dedupByUrlAux [] (exaAllResults srs)).find? (fun r => r.url == u) =
        (exaAllResults srs).find? (fun r => r.url == u)) := by
  constructor
  · have he : (ctnSearchNewsArticles [] query sources limit (.ok srs) now).1.articles =
        ((dedupByUrlAux [] (exaAllResults srs)).take limit).map (ctnTransformResult now) :=
      rfl
    rw [he]
    have hmap : ((((dedupByUrlAux [] (exaAllResults srs)).take limit).map
        (ctnTransformResult now)).map (fun a => a.url)) =
        ((dedupByUrlAux [] (exaAllResults srs)).take limit).map (fun r => r.url) := by
      rw [List.map_map]
      rfl
    rw [hmap]
    exact ((List.take_sublist _ _).map _).nodup (dedup_urls_nodup _ [])
  · intro u
    exact dedup_find_eq _ [] u (by simp)

lemma cacheGet_set {α : Type} (c : List (String × α)) (k : String) (v : α) :
    cacheGet (cacheSet c k v) k = some v := by
  simp [cacheGet, cacheSet, List.lookup]

/-- Shape of a cache-miss run of the search: the returned data is also written
to the cache under the search key, and the provider flag is set. -/
lemma search_cache_structure (cache : NewsCache) (query sources : String) (limit : ℕ)
    (p : Except Unit (List (Option (List ExaResult)))) (now : ℚ)
    (hmiss : cacheGet cache (ctnNewsCacheKey query sources limit) = none) :
    ctnSearchNewsArticles cache query sources limit p now =
      ((ctnSearchNewsArticles cache query sources limit p now).1,
       cacheSet cache (ctnNewsCacheKey query sources limit)
         (ctnSearchNewsArticles cache query sources limit p now).1,
       true) := by
  cases p with
  | ok srs => simp only [ctnSearchNewsArticles, hmiss]
  | error e => simp only [ctnSearchNewsArticles, hmiss]

/-- A cache hit returns the stored value, leaves the cache unchanged and does
not start a provider search. -/
lemma search_hit (cache : NewsCache) (query sources : String) (limit : ℕ)
    (p : Except Unit (List (Option (List ExaResult)))) (now : ℚ) (v : NewsData)
    (hhit : cacheGet cache (ctnNewsCacheKey query sources limit) = some v) :
    ctnSearchNewsArticles cache query sources limit p now = (v, cache, false) := by
  simp only [ctnSearchNewsArticles, hhit]

/-- C7: two identical searches inside one TTL window are served by one
provider call: a first call on a cache miss sets the provider flag; a second
call with the same query, source filter and limit against the resulting cache
returns exactly the first call's data, leaves the cache unchanged and does not
touch the provider (whatever the provider would answer the second time). -/
theorem c7_cache_idempotence (cache : NewsCache) (query sources : String) (limit : ℕ)
    (p1 p2 : Except Unit (List (Option (List ExaResult)))) (now1 now2 : ℚ)
    (hmiss : cacheGet cache (ctnNewsCacheKey query sources limit) = none) :
    (ctnSearchNewsArticles cache query sources limit p1 now1).2.2 = true ∧
    (ctnSearchNewsArticles (ctnSearchNewsArticles cache query sources limit p1 now1).2.1
      query sources limit p2 now2).1 =
      (ctnSearchNewsArticles cache query sources limit p1 now1).1 ∧
    (ctnSearchNewsArticles (ctnSearchNewsArticles cache query sources limit p1 now1).2.1
      query sources limit p2 now2).2.2 = false ∧
    (ctnSearchNewsArticles (ctnSearchNewsArticles cache query sources limit p1 now1).2.1
      query sources limit p2 now2).2.1 =
      (ctnSearchNewsArticles cache query sources limit p1 now1).2.1 := by
  have h1 := search_cache_structure cache query sources limit p1 now1 hmiss
  have hflag1 : (ctnSearchNewsArticles cache query sources limit p1 now1).2.2 = true := by
    rw [h1]
  have hc1 : (ctnSearchNewsArticles cache query sources limit p1 now1).2.1 =
      cacheSet cache (ctnNewsCacheKey query sources limit)
        (ctnSearchNewsArticles cache query sources limit p1 now1).1 := by
    conv_lhs => rw [h1]
  have hhit : cacheGet (ctnSearchNewsArticles cache query sources limit p1 now1).2.1
      (ctnNewsCacheKey query sources limit) =
      some (ctnSearchNewsArticles cache query sources limit p1 now1).1 := by
    rw [hc1]
    exact cacheGet_set _ _ _
  have h2 := search_hit _ query sources limit p2 now2 _ hhit
  exact ⟨hflag1, by rw [h2], by rw [h2], by rw [h2]⟩

/-- Witness for C7 at a concrete first run: empty cache, a provider success
with no results, and a second run whose provider outcome differs. -/
theorem c7_cache_idempotence_witness :
    (ctnSearchNewsArticles [] "q" "" 3 (.ok []) 0).2.2 = true ∧
    (ctnSearchNewsArticles (ctnSearchNewsArticles [] "q" "" 3 (.ok []) 0).2.1
      "q" "" 3 (.error ()) 1).1 = (ctnSearchNewsArticles [] "q" "" 3 (.ok []) 0).1 ∧
    (ctnSearchNewsArticles (ctnSearchNewsArticles [] "q" "" 3 (.ok []) 0).2.1
      "q" "" 3 (.error ()) 1).2.2 = false ∧
    (ctnSearchNewsArticles (ctnSearchNewsArticles [] "q" "" 3 (.ok []) 0).2.1
      "q" "" 3 (.error ()) 1).2.1 =
      (ctnSearchNewsArticles [] "q" "" 3 (.ok []) 0).2.1 :=
  c7_cache_idempotence [] "q" "" 3 (.ok []) (.error ()) 0 1 rfl

/-- C4: a request with `limit > 20` is rejected with status 400 before anything
runs: the search function is not entered, no provider search starts, no article
is processed, and the cache is untouched. -/
theorem c4_limit_validation (query : String) (limit : ℚ) (cache : NewsCache)
    (provider : Except Unit (List (Option (List ExaResult)))) (now : ℚ)
    (biasOf : Article → BiasAnalysis) (summaryOf : Article → Summary)
    (h : 20 < limit) :
    (newsSearchRoute query limit cache provider now biasOf summaryOf).response.status
      = 400 ∧
    (newsSearchRoute query limit cache provider now biasOf summaryOf).searchInvoked
      = false ∧
    (newsSearchRoute query limit cache provider now biasOf summaryOf).providerInvoked
      = false ∧
    (newsSearchRoute query limit cache provider now biasOf summaryOf).processedCount
      = 0 ∧
    (newsSearchRoute query limit cache provider now biasOf summaryOf).cache = cache := by
  rw [newsSearchRoute, if_pos h]
  exact ⟨rfl, rfl, rfl, rfl, rfl⟩

/-- Witness for C4 at limit 21. -/
theorem c4_limit_validation_witness :
    (newsSearchRoute "q" 21 [] (.ok []) 0
      (fun _ => ctnTier1Result ⟨none, none, none, none, none⟩)
      (fun _ => ⟨"", [], 0⟩)).response.status = 400 ∧
    (newsSearchRoute "q" 21 [] (.ok []) 0
      (fun _ => ctnTier1Result ⟨none, none, none, none, none⟩)
      (fun _ => ⟨"", [], 0⟩)).searchInvoked = false ∧
    (newsSearchRoute "q" 21 [] (.ok []) 0
      (fun _ => ctnTier1Result ⟨none, none, none, none, none⟩)
      (fun _ => ⟨"", [], 0⟩)).providerInvoked = false ∧
    (newsSearchRoute "q" 21 [] (.ok []) 0
      (fun _ => ctnTier1Result ⟨none, none, none, none, none⟩)
      (fun _ => ⟨"", [], 0⟩)).processedCount = 0 ∧
    (newsSearchRoute "q" 21 [] (.ok []) 0
      (fun _ => ctnTier1Result ⟨none, none, none, none, none⟩)
      (fun _ => ⟨"", [], 0⟩)).cache = [] :=
  c4_limit_validation "q" 21 [] (.ok []) 0 _ _ (by norm_num)

/-- C6: when the provider search fails (any rejection, the 10-second timeout
included) on a cache miss, the search returns exactly the five hard-coded
synthetic articles, and the route therefore answers 200 with those five
articles processed - the failure is masked as success. -/
theorem c6_fallback_on_provider_failure (query : String) (limit : ℚ) (cache : NewsCache)
    (now : ℚ) (biasOf : Article → BiasAnalysis) (summaryOf : Article → Summary)
    (hmiss : cacheGet cache (ctnNewsCacheKey query "" (jsTruncToNat limit)) = none)
    (hlim : ¬20 < limit) :
    (ctnSearchNewsArticles cache query "" (jsTruncToNat limit) (.error ()) now).1 =
      ⟨ctnFallbackArticles now⟩ ∧
    (ctnFallbackArticles now).length = 5 ∧
    (newsSearchRoute query limit cache (.error ()) now biasOf summaryOf).response.status
      = 200 ∧
    ((newsSearchRoute query limit cache (.error ()) now biasOf
        summaryOf).response.articles.map (fun pa => pa.article)) =
      ctnFallbackArticles now := by
  have hsearch : ctnSearchNewsArticles cache query "" (jsTruncToNat limit)
      (.error ()) now =
      (⟨ctnFallbackArticles now⟩,
       cacheSet cache (ctnNewsCacheKey query "" (jsTruncToNat limit))
         ⟨ctnFallbackArticles now⟩, true) := by
    simp only [ctnSearchNewsArticles, hmiss]
  have hne : (ctnFallbackArticles now).isEmpty = false := by
    rw [ctnFallbackArticles]
    rfl
  refine ⟨by rw [hsearch], by rw [ctnFallbackArticles]; rfl, ?_, ?_⟩
  · rw [newsSearchRoute, if_neg hlim, hsearch]
    simp only [newsRouteAfterSearch]
    simp [hne]
  · rw [newsSearchRoute, if_neg hlim, hsearch]
    simp only [newsRouteAfterSearch]
    have hfun : ((fun pa => pa.article) ∘ ctnProcessCompleteArticle now biasOf summaryOf)
        = fun a => a := funext fun _ => rfl
    simp only [hne, Bool.false_eq_true, if_false, List.map_map, hfun]
    exact List.map_id' _

/-- Witness for C6 on an empty cache with limit 10. -/
theorem c6_fallback_witness :
    (ctnSearchNewsArticles [] "q" "" (jsTruncToNat 10) (.error ()) 0).1 =
      ⟨ctnFallbackArticles 0⟩ ∧
    (ctnFallbackArticles (0 : ℚ)).length = 5 ∧
    (newsSearchRoute "q" 10 [] (.error ()) 0
      (fun _ => ctnTier1Result ⟨none, none, none, none, none⟩)
      (fun _ => ⟨"", [], 0⟩)).response.status = 200 ∧
    ((newsSearchRoute "q" 10 [] (.error ()) 0
        (fun _ => ctnTier1Result ⟨none, none, none, none, none⟩)
        (fun _ => ⟨"", [], 0⟩)).response.articles.map (fun pa => pa.article)) =
      ctnFallbackArticles 0 :=
  c6_fallback_on_provider_failure "q" 10 [] 0 _ _ rfl (by norm_num)

end CtnAi
